import Mathlib

/-!
Shallow embedding of the query/transform core of `app.py` (Boston Airbnb
Finder): the loader/cleaner (`load_data`), the price filter
(`filter_listings`), the rating filter and defensive rating column of
`top_rated_airbnbs_page`, the sort-and-take-10 of
`most_affordable_airbnbs_page`, the pivot-table mean of
`price_distribution_page`, and the location/cuisine filter of
`restaurant_page`.

Numeric cells are modelled as rationals; a pandas `NaN` cell is modelled as
`Option.none`.  A pandas comparison (`>=`, `<=`, `==`) against a `NaN` cell
is false, which the `Option`-aware comparison helpers below reproduce.
-/

namespace App

/-- One raw cell of a numeric column of `listings.csv` as pandas sees it
before coercion: a missing value (`NaN`), a value that coerces to a number
(`num`), or a non-null value on which `pd.to_numeric(..., errors="coerce")`
fails and yields `NaN` (`nonNumeric`). -/
inductive Cell where
  | missing : Cell
  | num : ℚ → Cell
  | nonNumeric : String → Cell
deriving DecidableEq, Repr

/-- Whether a raw cell is missing (`NaN`), as tested by `dropna`. -/
def Cell.isMissing : Cell → Bool
  | .missing => true
  | _ => false

/-- `pd.to_numeric(cell, errors="coerce")`: a numeric value stays, a missing
value stays missing, a non-null value that fails coercion becomes `NaN`. -/
def Cell.coerce : Cell → Option ℚ
  | .num q => some q
  | _ => none

/-- One row of the raw `listings.csv` table, before cleaning.  Columns not
used by the core carry their natural types; `reviews_per_month` is a numeric
column that may hold `NaN`; `neighbourhood` is a text column that may hold
`NaN`. -/
structure RawListing where
  name : String
  price : Cell
  availability_365 : Cell
  neighbourhood : Option String
  number_of_reviews : Cell
  reviews_per_month : Option ℚ
  latitude : ℚ
  longitude : ℚ
deriving DecidableEq, Repr

/-- One row of the cleaned listings table produced by `load_data`.  The
three coerced columns are `Option ℚ` because coercion happens after the
null-drop and can itself produce `NaN`; `reviews_per_month` is total after
`fillna(0)`, and `rating` is the derived column added at line 59. -/
structure Listing where
  name : String
  price : Option ℚ
  availability_365 : Option ℚ
  neighbourhood : String
  number_of_reviews : Option ℚ
  reviews_per_month : ℚ
  rating : ℚ
  latitude : ℚ
  longitude : ℚ
deriving DecidableEq, Repr

/-- The rating lambda of line 59:
`lambda x: x * 5 if x * 5 <= 5 else 5`. -/
def ratingOf (x : ℚ) : ℚ :=
  if x * 5 ≤ 5 then x * 5 else 5

/-- Whether a raw row survives
`dropna(subset=["price", "availability_365", "neighbourhood", "number_of_reviews"])`
(line 48). -/
def keepRow (r : RawListing) : Bool :=
  !r.price.isMissing && !r.availability_365.isMissing &&
    r.neighbourhood.isSome && !r.number_of_reviews.isMissing

/-- The per-row effect of lines 50-59 of `load_data`: coerce the three
numeric columns, fill missing `reviews_per_month` with 0, and derive
`rating`. -/
def cleanRow (r : RawListing) : Listing :=
  { name := r.name
    price := r.price.coerce
    availability_365 := r.availability_365.coerce
    neighbourhood := r.neighbourhood.getD ""
    number_of_reviews := r.number_of_reviews.coerce
    reviews_per_month := r.reviews_per_month.getD 0
    rating := ratingOf (r.reviews_per_month.getD 0)
    latitude := r.latitude
    longitude := r.longitude }

/-- The cleaning pipeline of `load_data` (lines 48-59): drop rows with a
missing required cell, then coerce / fill / derive columns row by row. -/
def clean_listings (raw : List RawListing) : List Listing :=
  (raw.filter keepRow).map cleanRow

/-- Pandas comparison `cell >= bound` on a numeric column: false when the
cell is `NaN`. -/
def optGe (c : Option ℚ) (bound : ℚ) : Bool :=
  match c with
  | some p => bound ≤ p
  | none => false

/-- Pandas comparison `cell <= bound` on a numeric column: false when the
cell is `NaN`. -/
def optLe (c : Option ℚ) (bound : ℚ) : Bool :=
  match c with
  | some p => p ≤ bound
  | none => false

/-- `filter_listings(data, min_price, max_price, neighborhood=None)`
(lines 20-27).  The Python guard `if neighborhood:` is truthiness: it takes
the neighbourhood branch only when the argument is present and a non-empty
string. -/
def filter_listings (data : List Listing) (min_price max_price : ℚ)
    (neighborhood : Option String := none) : List Listing :=
  match neighborhood with
  | some s =>
    if s = "" then
      data.filter fun l => optGe l.price min_price && optLe l.price max_price
    else
      data.filter fun l =>
        optGe l.price min_price && optLe l.price max_price &&
          l.neighbourhood == s
  | none =>
    data.filter fun l => optGe l.price min_price && optLe l.price max_price

/-- The spec's price condition, written from its words: the row's price is
present and satisfies `min_price ≤ price ≤ max_price`, inclusive at both
boundaries. -/
def inPriceRange (min_price max_price : ℚ) (l : Listing) : Prop :=
  ∃ p, l.price = some p ∧ min_price ≤ p ∧ p ≤ max_price

/-- The comparison used by `sort_values(by='price')`: ascending on the
price column, with `NaN` placed last (`na_position='last'`). -/
def priceLe (a b : Listing) : Bool :=
  match a.price, b.price with
  | some p, some q => p ≤ q
  | some _, none => true
  | none, some _ => false
  | none, none => true

/-- `affordable_data.sort_values(by='price')` (line 218): an ascending sort
on the price column.  The source uses pandas' default `kind='quicksort'`,
which pandas documents as not stable, so the program leaves the relative
order of equal-price rows unspecified; `mergeSort` here is one concrete
ascending sort standing in for that call, and no theorem below relies on
the tie-break order it happens to produce — only on properties shared by
every ascending reordering (membership, length, price bounds). -/
def sortByPrice (data : List Listing) : List Listing :=
  data.mergeSort priceLe

/-- The query of `most_affordable_airbnbs_page` (lines 216-218): price-filter
to [0, 200] with the selectbox value `'All'` mapped to `None`, sort ascending
by price, keep the first 10 rows (`head(10)`). -/
def most_affordable (listings : List Listing) (selected : String) : List Listing :=
  let affordable :=
    filter_listings listings 0 200
      (if selected = "All" then none else some selected)
  (sortByPrice affordable).take 10

/-- Lines 94-95 of `top_rated_airbnbs_page`: if the `rating` column is
absent, assign `listings['rating'] = listings['reviews_per_month'] * 5`
(no cap).  The table is modelled as a flag recording whether the rating
column is present, together with the rows. -/
def with_rating_column (hasRating : Bool) (rows : List Listing) : List Listing :=
  if hasRating then rows
  else rows.map fun l => { l with rating := l.reviews_per_month * 5 }

/-- The state of the caller's `listings` table after lines 94-95 have run:
the defensive branch assigns a new column in place, so the table the caller
passed in now always has the rating column. -/
def top_rated_post_table (hasRating : Bool) (rows : List Listing) :
    Bool × List Listing :=
  (true, with_rating_column hasRating rows)

/-- Lines 98 and 104-105 of `top_rated_airbnbs_page`: keep rows with
`rating >= min_rating`, then, when the multiselect list is non-empty
(Python truthiness of a list), keep rows whose neighbourhood is in it. -/
def rating_filter (rows : List Listing) (min_rating : ℚ)
    (selected : List String) : List Listing :=
  let fd := rows.filter fun l => min_rating ≤ l.rating
  if selected.isEmpty then fd
  else fd.filter fun l => selected.contains l.neighbourhood

/-- The full rating query of `top_rated_airbnbs_page` (lines 94-105),
including the defensive rating column. -/
def top_rated_result (hasRating : Bool) (rows : List Listing)
    (min_rating : ℚ) (selected : List String) : List Listing :=
  rating_filter (with_rating_column hasRating rows) min_rating selected

/-- One row of the restaurants table (columns used by the core). -/
structure Restaurant where
  name : String
  location : String
  cuisine : String
deriving DecidableEq, Repr

/-- The filter of `restaurant_page` (lines 268-274): copy the table, then
restrict by location if it is not `"All"`, then by cuisine if it is not
`"All"`. -/
def restaurant_filter (restaurants : List Restaurant)
    (location cuisine : String) : List Restaurant :=
  let fd := restaurants
  let fd := if location ≠ "All" then fd.filter (fun r => r.location == location) else fd
  if cuisine ≠ "All" then fd.filter (fun r => r.cuisine == cuisine) else fd

/-- `.round(2)` on a rational value. -/
def round2 (q : ℚ) : ℚ :=
  (round (q * 100) : ℤ) / 100

/-- The present (non-`NaN`) prices of the rows of one neighbourhood group,
in table order. -/
def groupPrices (rows : List Listing) (nb : String) : List ℚ :=
  (rows.filter fun l => l.neighbourhood == nb).filterMap fun l => l.price

/-- The pivot table of `price_distribution_page` (lines 178-183):
`pd.pivot_table(values="price", index="neighbourhood", aggfunc="mean").round(2)`,
viewed as a mapping from neighbourhood to rounded mean price.  The pandas
mean skips `NaN` cells, and a group whose aggregate is `NaN` (no present
price) is dropped from the result (`dropna=True`), so such a neighbourhood
is absent from the mapping. -/
def neighborhood_mean_price (rows : List Listing) (nb : String) : Option ℚ :=
  let prices := groupPrices rows nb
  if prices.isEmpty then none
  else some (round2 (prices.sum / prices.length))

/-- The ways one of the four reads inside the `try` block can fail:
`sourceNotFound` is a raised `FileNotFoundError`, `sourceUnparseable` a
raised `pd.errors.ParserError` (the CSV tokenizer's error), and `uncaught`
any other raised exception — e.g. the `ValueError`/`zipfile.BadZipFile`
that `pd.read_excel` raises on malformed content, or a
`UnicodeDecodeError` from an undecodable CSV. -/
inductive ReadError where
  | sourceNotFound : String → ReadError
  | sourceUnparseable : String → ReadError
  | uncaught : String → ReadError
deriving DecidableEq, Repr

/-- Whether a raised exception is matched by one of the two `except`
clauses of `load_data` (lines 40-45): only `FileNotFoundError` and
`pd.errors.ParserError` are; every other exception propagates out of the
function. -/
def ReadError.isCaught : ReadError → Bool
  | .sourceNotFound _ => true
  | .sourceUnparseable _ => true
  | .uncaught _ => false

/-- The `try` block of `load_data` (lines 31-39): the four reads run in
order and the first raise aborts the block. -/
def read4 (ls : Except ReadError (List RawListing))
    (ns rs : Except ReadError (List String))
    (rest : Except ReadError (List Restaurant)) :
    Except ReadError
      (List RawListing × List String × List String × List Restaurant) := do
  let a ← ls
  let b ← ns
  let c ← rs
  let d ← rest
  return (a, b, c, d)

/-- `load_data` (lines 30-61).  A failure matched by one of the two
`except` clauses is reported (`st.error`) and the function returns
`(None, None, None, None)`; any other exception propagates out of the
function (the outer `.error`), so nothing is returned at all.  On success
the listings table is cleaned and all four tables are returned.  The
reported signal is modelled as the first component of the returned
tuple. -/
def load_data (ls : Except ReadError (List RawListing))
    (ns rs : Except ReadError (List String))
    (rest : Except ReadError (List Restaurant)) :
    Except ReadError
      (Option ReadError × Option (List Listing) × Option (List String) ×
        Option (List String) × Option (List Restaurant)) :=
  match read4 ls ns rs rest with
  | .error e =>
    if e.isCaught then .ok (some e, none, none, none, none) else .error e
  | .ok (a, b, c, d) =>
    .ok (none, some (clean_listings a), some b, some c, some d)

/-- A sample raw row whose cells all hold numeric values. -/
def sampleRaw : RawListing :=
  { name := "Cozy Loft", price := .num 100, availability_365 := .num 30,
    neighbourhood := some "Back Bay", number_of_reviews := .num 12,
    reviews_per_month := some 1, latitude := 42, longitude := -71 }

/-- A sample raw row whose non-null price fails numeric coercion. -/
def rawBadPrice : RawListing :=
  { sampleRaw with name := "Bad Price", price := .nonNumeric "N/A" }

/-- A sample cleaned row: price 100, neighbourhood "Back Bay", rating 5. -/
def lA : Listing :=
  { name := "A", price := some 100, availability_365 := some 30,
    neighbourhood := "Back Bay", number_of_reviews := some 12,
    reviews_per_month := 1, rating := 5, latitude := 42, longitude := -71 }

/-- A sample cleaned row: price 250, neighbourhood "Fenway", rating 0. -/
def lB : Listing :=
  { lA with name := "B", price := some 250, neighbourhood := "Fenway", reviews_per_month := 0, rating := 0 }

/-- A sample row whose price cell is missing (failed coercion). -/
def lNaN : Listing :=
  { lA with name := "C", price := none, neighbourhood := "Fenway", reviews_per_month := 0, rating := 0 }

/-- A sample row with `reviews_per_month = 2`, belonging to a table that
never went through the Cleaner (its rating cell holds a stale 0). -/
def lRpm2 : Listing :=
  { lA with name := "D", price := some 80, neighbourhood := "Allston", reviews_per_month := 2, rating := 0 }

/-- The row `lRpm2` after the defensive inline rating derivation. -/
def lRpm2R : Listing :=
  { lRpm2 with rating := 10 }

/-- A sample restaurant row. -/
def rEx : Restaurant :=
  { name := "Neptune Oyster", location := "North End", cuisine := "Seafood" }

/-! ## Helper lemmas -/

theorem mem_clean_listings {raw : List RawListing} {l : Listing} :
    l ∈ clean_listings raw ↔ ∃ r, r ∈ raw ∧ keepRow r = true ∧ cleanRow r = l := by
  simp [clean_listings, List.mem_map, List.mem_filter, and_assoc]

theorem clean_rating_eq {raw : List RawListing} {l : Listing}
    (hl : l ∈ clean_listings raw) : l.rating = ratingOf l.reviews_per_month := by
  rcases mem_clean_listings.mp hl with ⟨r, -, -, rfl⟩
  rfl

theorem ratingOf_eq_min (x : ℚ) : ratingOf x = min (x * 5) 5 := by
  simp [ratingOf, min_def]

theorem ratingOf_nonneg {x : ℚ} (hx : 0 ≤ x) : 0 ≤ ratingOf x := by
  rw [ratingOf_eq_min]
  exact le_min (by positivity) (by norm_num)

theorem ratingOf_le_five (x : ℚ) : ratingOf x ≤ 5 := by
  rw [ratingOf_eq_min]
  exact min_le_right _ _

theorem ratingOf_eq_zero_iff (x : ℚ) : ratingOf x = 0 ↔ x = 0 := by
  unfold ratingOf
  split_ifs with h
  · constructor
    · intro h0
      rcases mul_eq_zero.mp h0 with h1 | h1
      · exact h1
      · norm_num at h1
    · intro h0
      rw [h0]
      ring
  · constructor
    · intro h0
      norm_num at h0
    · intro h0
      rw [h0] at h
      norm_num at h

/-! ## Claim theorems -/

/-- C1: for every row of the cleaned listings table, the derived rating
equals min(reviews_per_month × 5, 5); consequently, given the filled
reviews_per_month is non-negative, 0 ≤ rating ≤ 5 and rating = 0 iff
reviews_per_month = 0. -/
theorem C1_rating_invariant (raw : List RawListing) (l : Listing)
    (hl : l ∈ clean_listings raw) (h0 : 0 ≤ l.reviews_per_month) :
    l.rating = min (l.reviews_per_month * 5) 5 ∧
      0 ≤ l.rating ∧ l.rating ≤ 5 ∧
      (l.rating = 0 ↔ l.reviews_per_month = 0) := by
  have hr := clean_rating_eq hl
  refine ⟨by rw [hr, ratingOf_eq_min], ?_, ?_, ?_⟩
  · rw [hr]
    exact ratingOf_nonneg h0
  · rw [hr]
    exact ratingOf_le_five _
  · rw [hr]
    exact ratingOf_eq_zero_iff _

/-- Witness for C1 at a concrete cleaned row. -/
theorem C1_rating_invariant_witness :
    (cleanRow sampleRaw ∈ clean_listings [sampleRaw] ∧
      0 ≤ (cleanRow sampleRaw).reviews_per_month) ∧
    ((cleanRow sampleRaw).rating = min ((cleanRow sampleRaw).reviews_per_month * 5) 5 ∧
      0 ≤ (cleanRow sampleRaw).rating ∧ (cleanRow sampleRaw).rating ≤ 5 ∧
      ((cleanRow sampleRaw).rating = 0 ↔ (cleanRow sampleRaw).reviews_per_month = 0)) :=
  ⟨⟨by simp [clean_listings, keepRow, sampleRaw, Cell.isMissing],
      by norm_num [cleanRow, sampleRaw]⟩,
    C1_rating_invariant [sampleRaw] (cleanRow sampleRaw)
      (by simp [clean_listings, keepRow, sampleRaw, Cell.isMissing])
      (by norm_num [cleanRow, sampleRaw])⟩

/-- C2 counterexample: on an input row whose non-null price fails numeric
coercion, the row survives cleaning but its price cell is missing, so it is
not the case that every remaining row has a well-defined numeric price. -/
theorem C2_cleaner_counterexample :
    clean_listings [rawBadPrice] = [cleanRow rawBadPrice] ∧
      (cleanRow rawBadPrice).price = none := by
  constructor
  · simp [clean_listings, keepRow, rawBadPrice, sampleRaw, Cell.isMissing]
  · rfl

/-- C2 (amended): every cleaned row comes from an input row that passed the
null-drop; its price, availability_365 and number_of_reviews equal the
numeric coercions of that row's cells — the price is present exactly when
the raw cell held a numeric value, and a non-null value that fails coercion
leaves a missing cell without the row being re-dropped — and the rating is
in [0,5] whenever the filled reviews_per_month is non-negative. -/
theorem C2_cleaner_amended (raw : List RawListing) (l : Listing)
    (hl : l ∈ clean_listings raw) :
    (0 ≤ l.reviews_per_month → 0 ≤ l.rating ∧ l.rating ≤ 5) ∧
    ∃ r, r ∈ raw ∧ keepRow r = true ∧
      l.price = r.price.coerce ∧
      l.availability_365 = r.availability_365.coerce ∧
      l.number_of_reviews = r.number_of_reviews.coerce ∧
      (l.price.isSome = true ↔ ∃ q, r.price = Cell.num q) := by
  obtain ⟨r, hr, hk, rfl⟩ := mem_clean_listings.mp hl
  refine ⟨fun h0 => ⟨ratingOf_nonneg h0, ratingOf_le_five _⟩,
    r, hr, hk, rfl, rfl, rfl, ?_⟩
  cases hp : r.price <;> simp [Cell.coerce, cleanRow, hp]

/-- Witness for the amended C2 at a concrete cleaned row. -/
theorem C2_cleaner_amended_witness :
    cleanRow sampleRaw ∈ clean_listings [sampleRaw] ∧
    ((0 ≤ (cleanRow sampleRaw).reviews_per_month →
        0 ≤ (cleanRow sampleRaw).rating ∧ (cleanRow sampleRaw).rating ≤ 5) ∧
      ∃ r, r ∈ [sampleRaw] ∧ keepRow r = true ∧
        (cleanRow sampleRaw).price = r.price.coerce ∧
        (cleanRow sampleRaw).availability_365 = r.availability_365.coerce ∧
        (cleanRow sampleRaw).number_of_reviews = r.number_of_reviews.coerce ∧
        ((cleanRow sampleRaw).price.isSome = true ↔ ∃ q, r.price = Cell.num q)) :=
  ⟨by simp [clean_listings, keepRow, sampleRaw, Cell.isMissing],
    C2_cleaner_amended [sampleRaw] (cleanRow sampleRaw)
      (by simp [clean_listings, keepRow, sampleRaw, Cell.isMissing])⟩

theorem price_pred_iff (lo hi : ℚ) (l : Listing) :
    (optGe l.price lo && optLe l.price hi) = true ↔ inPriceRange lo hi l := by
  cases hp : l.price <;> simp [optGe, optLe, inPriceRange, hp]

theorem filter_listings_none_eq (data : List Listing) (lo hi : ℚ) :
    filter_listings data lo hi none =
      data.filter (fun l => optGe l.price lo && optLe l.price hi) := rfl

theorem filter_listings_some_eq (data : List Listing) (lo hi : ℚ)
    {s : String} (hs : s ≠ "") :
    filter_listings data lo hi (some s) =
      data.filter (fun l =>
        optGe l.price lo && optLe l.price hi && l.neighbourhood == s) := by
  simp [filter_listings, hs]

theorem filter_listings_empty_str_eq (data : List Listing) (lo hi : ℚ) :
    filter_listings data lo hi (some "") =
      data.filter (fun l => optGe l.price lo && optLe l.price hi) := by
  simp [filter_listings]

theorem mem_filter_listings {data : List Listing} {lo hi : ℚ}
    {nb : Option String} {l : Listing} (h : l ∈ filter_listings data lo hi nb) :
    l ∈ data ∧ (optGe l.price lo && optLe l.price hi) = true := by
  rcases nb with - | s
  · rw [filter_listings_none_eq] at h
    have := List.mem_filter.mp h
    exact ⟨this.1, this.2⟩
  · by_cases hs : s = ""
    · subst hs
      rw [filter_listings_empty_str_eq] at h
      have := List.mem_filter.mp h
      exact ⟨this.1, this.2⟩
    · rw [filter_listings_some_eq data lo hi hs] at h
      have := List.mem_filter.mp h
      exact ⟨this.1, (Bool.and_eq_true_iff.mp this.2).1⟩

theorem optGe_isSome {c : Option ℚ} {b : ℚ} (h : optGe c b = true) :
    c.isSome = true := by
  cases c <;> simp_all [optGe]

/-- C4 counterexample: with the empty string passed as the neighborhood
argument, Python truthiness skips the neighbourhood restriction, so a row
whose neighbourhood is not the given one is still returned. -/
theorem C4_price_filter_counterexample :
    filter_listings [lA] 0 200 (some "") = [lA] ∧ lA.neighbourhood ≠ "" := by
  constructor
  · norm_num [filter_listings, optGe, optLe, lA]
  · simp [lA]

/-- C4 (amended): filter_listings returns exactly the rows whose price is
present and within [lo, hi], inclusive at both boundaries, in the input's
original order; when a neighborhood is given, non-empty (an empty string is
treated as not given) and not the sentinel "All", the result is further
restricted to exactly the rows whose neighbourhood equals it. -/
theorem C4_price_filter_amended (data : List Listing) (lo hi : ℚ)
    (s : String) (l : Listing) :
    (l ∈ filter_listings data lo hi none ↔ l ∈ data ∧ inPriceRange lo hi l) ∧
    (filter_listings data lo hi none).Sublist data ∧
    (s ≠ "" → s ≠ "All" →
      (l ∈ filter_listings data lo hi (some s) ↔
          l ∈ data ∧ inPriceRange lo hi l ∧ l.neighbourhood = s) ∧
        (filter_listings data lo hi (some s)).Sublist data) := by
  refine ⟨?_, List.filter_sublist data, fun hs _hall => ⟨?_, ?_⟩⟩
  · rw [filter_listings_none_eq, List.mem_filter, price_pred_iff]
  · rw [filter_listings_some_eq data lo hi hs, List.mem_filter]
    constructor
    · rintro ⟨hd, hp⟩
      rcases Bool.and_eq_true_iff.mp hp with ⟨h1, h2⟩
      exact ⟨hd, (price_pred_iff lo hi l).mp h1, by simpa using h2⟩
    · rintro ⟨hd, hp, hn⟩
      exact ⟨hd, Bool.and_eq_true_iff.mpr
        ⟨(price_pred_iff lo hi l).mpr hp, by simpa using hn⟩⟩
  · rw [filter_listings_some_eq data lo hi hs]
    exact List.filter_sublist data

/-- Witness for the amended C4 at a concrete table and neighborhood. -/
theorem C4_price_filter_amended_witness :
    ((lA ∈ filter_listings [lA, lB] 0 200 none ↔
        lA ∈ [lA, lB] ∧ inPriceRange 0 200 lA) ∧
      (filter_listings [lA, lB] 0 200 none).Sublist [lA, lB] ∧
      ((lA ∈ filter_listings [lA, lB] 0 200 (some "Back Bay") ↔
          lA ∈ [lA, lB] ∧ inPriceRange 0 200 lA ∧ lA.neighbourhood = "Back Bay") ∧
        (filter_listings [lA, lB] 0 200 (some "Back Bay")).Sublist [lA, lB])) :=
  have h := C4_price_filter_amended [lA, lB] 0 200 "Back Bay" lA
  ⟨h.1, h.2.1, h.2.2 (by simp) (by simp)⟩

/-- C10: every row returned by filter_listings — and hence by the
most-affordable query built on it — has a present, non-missing price: a row
whose price cell is missing satisfies neither boundary comparison. -/
theorem C10_no_missing_price (data : List Listing) (lo hi : ℚ)
    (nb : Option String) (selected : String) (l : Listing) :
    (l ∈ filter_listings data lo hi nb → l.price.isSome = true) ∧
    (l ∈ most_affordable data selected → l.price.isSome = true) := by
  constructor
  · intro h
    exact optGe_isSome (Bool.and_eq_true_iff.mp (mem_filter_listings h).2).1
  · intro h
    have h1 : l ∈ sortByPrice (filter_listings data 0 200
        (if selected = "All" then none else some selected)) :=
      (List.take_sublist 10 _).subset h
    have h2 := List.mem_mergeSort.mp h1
    exact optGe_isSome (Bool.and_eq_true_iff.mp (mem_filter_listings h2).2).1

/-- Witness for C10 at a concrete table. -/
theorem C10_no_missing_price_witness :
    lA ∈ filter_listings [lA] 0 200 none ∧
    lA ∈ most_affordable [lA] "All" ∧ lA.price.isSome = true :=
  have hm : lA ∈ filter_listings [lA] 0 200 none := by
    norm_num [filter_listings, optGe, optLe, lA]
  have hm2 : lA ∈ most_affordable [lA] "All" := by
    norm_num [most_affordable, filter_listings, sortByPrice, optGe, optLe, lA]
  ⟨hm, hm2, (C10_no_missing_price [lA] 0 200 none "All" lA).1 hm⟩

theorem mem_rating_filter {rows : List Listing} {r : ℚ} {sel : List String}
    {l : Listing} :
    l ∈ rating_filter rows r sel ↔
      l ∈ rows ∧ r ≤ l.rating ∧ (sel ≠ [] → l.neighbourhood ∈ sel) := by
  unfold rating_filter
  rcases sel with - | ⟨s, sel'⟩
  · simp [List.mem_filter]
  · simp only [List.mem_filter]
    simp
    tauto

/-- C5: the rating filter returns exactly the rows with rating ≥ min_rating,
further restricted — exactly when the selected list is non-empty — to rows
whose neighbourhood is in the selection; lowering the threshold only widens
the result (monotonic narrowing). -/
theorem C5_rating_filter_query (rows : List Listing) (r r' : ℚ)
    (sel : List String) :
    (sel = [] → rating_filter rows r sel =
        rows.filter fun l => decide (r ≤ l.rating)) ∧
    (sel ≠ [] → rating_filter rows r sel =
        (rows.filter fun l => decide (r ≤ l.rating)).filter
          fun l => sel.contains l.neighbourhood) ∧
    (∀ l, l ∈ rating_filter rows r sel ↔
        l ∈ rows ∧ r ≤ l.rating ∧ (sel ≠ [] → l.neighbourhood ∈ sel)) ∧
    (r' ≤ r → ∀ l ∈ rating_filter rows r sel, l ∈ rating_filter rows r' sel) := by
  refine ⟨?_, ?_, fun l => mem_rating_filter, ?_⟩
  · rintro rfl
    rfl
  · intro hs
    unfold rating_filter
    rw [if_neg (by simpa using hs)]
  · intro hr l hl
    rcases mem_rating_filter.mp hl with ⟨h1, h2, h3⟩
    exact mem_rating_filter.mpr ⟨h1, le_trans hr h2, h3⟩

/-- Witness for C5 at a concrete table and thresholds. -/
theorem C5_rating_filter_query_witness :
    rating_filter [lA, lB] 4 [] =
      ([lA, lB].filter fun l => decide ((4 : ℚ) ≤ l.rating)) ∧
    lA ∈ rating_filter [lA, lB] 4 ["Back Bay"] ∧
    lA ∈ rating_filter [lA, lB] 1 ["Back Bay"] :=
  have hm : lA ∈ rating_filter [lA, lB] 4 ["Back Bay"] := by
    norm_num [rating_filter, lA, lB]
  ⟨(C5_rating_filter_query [lA, lB] 4 1 []).1 rfl, hm,
    (C5_rating_filter_query [lA, lB] 4 1 ["Back Bay"]).2.2.2 (by norm_num) lA hm⟩

/-- C6: on a table without the rating column, the rating used by the
top-rated page is derived inline as reviews_per_month × 5 with no cap, so a
row with reviews_per_month > 1 gets a rating above 5 that differs from the
Cleaner's capped derivation. -/
theorem C6_uncapped_inline_rating (rows : List Listing) (l : Listing)
    (hl : l ∈ with_rating_column false rows) (h1 : 1 < l.reviews_per_month) :
    l.rating = l.reviews_per_month * 5 ∧ 5 < l.rating ∧
      l.rating ≠ ratingOf l.reviews_per_month := by
  have hr : l.rating = l.reviews_per_month * 5 := by
    simp only [with_rating_column, Bool.false_eq_true, if_false] at hl
    obtain ⟨x, hx, rfl⟩ := List.mem_map.mp hl
    rfl
  have h5 : (5 : ℚ) < l.reviews_per_month * 5 := by nlinarith
  refine ⟨hr, by rw [hr]; exact h5, ?_⟩
  rw [hr]
  have hcap : ratingOf l.reviews_per_month = 5 := by
    unfold ratingOf
    rw [if_neg (not_le.mpr h5)]
  rw [hcap]
  exact ne_of_gt h5

/-- Witness for C6 at a concrete row with reviews_per_month = 2. -/
theorem C6_uncapped_inline_rating_witness :
    lRpm2R ∈ with_rating_column false [lRpm2] ∧
    1 < lRpm2R.reviews_per_month ∧
    (lRpm2R.rating = lRpm2R.reviews_per_month * 5 ∧ 5 < lRpm2R.rating ∧
      lRpm2R.rating ≠ ratingOf lRpm2R.reviews_per_month) :=
  have hm : lRpm2R ∈ with_rating_column false [lRpm2] := by
    norm_num [with_rating_column, lRpm2R, lRpm2, lA]
  have h1 : (1 : ℚ) < lRpm2R.reviews_per_month := by
    norm_num [lRpm2R, lRpm2, lA]
  ⟨hm, h1, C6_uncapped_inline_rating [lRpm2] lRpm2R hm h1⟩

/-- C7 counterexample: on a listings table without the rating column, the
top-rated page's defensive branch adds the rating column to the caller's
table in place, so the input table is not unchanged: its row now carries
rating 10 where the original carried 0. -/
theorem C7_no_mutation_counterexample :
    top_rated_post_table false [lRpm2] ≠ (false, [lRpm2]) ∧
    (top_rated_post_table false [lRpm2]).2 ≠ [lRpm2] ∧
    (top_rated_post_table false [lRpm2]).2.map Listing.rating = [10] ∧
    [lRpm2].map Listing.rating = [0] := by
  refine ⟨?_, ?_, ?_, ?_⟩ <;>
    norm_num [top_rated_post_table, with_rating_column, lRpm2, lA, Prod.ext_iff]

/-- C7 (amended): the price and restaurant filters never change their input
table and return fresh subsequences of it; the most-affordable query never
changes its input table and returns a fresh result every row of which is a
row of the input; and the rating page leaves its input unchanged whenever
the rating column is present — as it always is for cleaned tables; only the
defensive missing-column branch assigns a new column into the caller's
table. -/
theorem C7_no_mutation_amended (rows : List Listing) (rests : List Restaurant)
    (lo hi : ℚ) (nb : Option String) (location cuisine : String)
    (selected : String) :
    top_rated_post_table true rows = (true, rows) ∧
    (filter_listings rows lo hi nb).Sublist rows ∧
    (restaurant_filter rests location cuisine).Sublist rests ∧
    (∀ l ∈ most_affordable rows selected, l ∈ rows) := by
  refine ⟨rfl, ?_, ?_, ?_⟩
  · rcases nb with - | s
    · rw [filter_listings_none_eq]
      exact List.filter_sublist rows
    · by_cases hs : s = ""
      · subst hs
        rw [filter_listings_empty_str_eq]
        exact List.filter_sublist rows
      · rw [filter_listings_some_eq rows lo hi hs]
        exact List.filter_sublist rows
  · unfold restaurant_filter
    split_ifs <;>
      first
        | exact (List.filter_sublist _).trans (List.filter_sublist _)
        | exact List.filter_sublist _
        | exact List.Sublist.refl _
  · intro l hl
    have h1 : l ∈ sortByPrice (filter_listings rows 0 200
        (if selected = "All" then none else some selected)) :=
      (List.take_sublist 10 _).subset hl
    have h2 := List.mem_mergeSort.mp h1
    exact (mem_filter_listings h2).1

/-- Witness for the amended C7 at a concrete table. -/
theorem C7_no_mutation_amended_witness :
    top_rated_post_table true [lA] = (true, [lA]) ∧
    lA ∈ most_affordable [lA] "All" ∧ lA ∈ [lA] :=
  have h := C7_no_mutation_amended [lA] [rEx] 0 200 none "All" "All" "All"
  have hm : lA ∈ most_affordable [lA] "All" := by
    norm_num [most_affordable, filter_listings, sortByPrice, optGe, optLe, lA]
  ⟨h.1, hm, h.2.2.2 lA hm⟩

theorem groupPrices_ne_nil_iff {rows : List Listing} {nb : String} :
    groupPrices rows nb ≠ [] ↔
      ∃ l ∈ rows, l.neighbourhood = nb ∧ l.price.isSome = true := by
  unfold groupPrices
  rw [ne_eq, List.filterMap_eq_nil_iff]
  push_neg
  constructor
  · rintro ⟨l, hl, hp⟩
    have hm := List.mem_filter.mp hl
    exact ⟨l, hm.1, by simpa using hm.2, Option.isSome_iff_ne_none.mpr hp⟩
  · rintro ⟨l, hl, hnb, hp⟩
    exact ⟨l, List.mem_filter.mpr ⟨hl, by simpa using hnb⟩,
      Option.isSome_iff_ne_none.mp hp⟩

/-- C8 counterexample: a neighbourhood all of whose rows have a missing
price is dropped from the pivot result even though it has a row in the
input table, so the key set is not "exactly the neighborhoods with at least
one row". -/
theorem C8_mean_price_counterexample :
    neighborhood_mean_price [lNaN] "Fenway" = none ∧
    lNaN ∈ [lNaN] ∧ lNaN.neighbourhood = "Fenway" := by
  refine ⟨?_, List.mem_singleton.mpr rfl, rfl⟩
  simp [neighborhood_mean_price, groupPrices, lNaN, lA]

/-- C8 (amended): the pivot result has a value for a neighbourhood exactly
when some row of that neighbourhood has a present price; the value is the
arithmetic mean (sum divided by count) of the present prices of that
neighbourhood's rows, rounded to 2 decimal places; a neighbourhood whose
present prices are the single value 100 maps to 100.00. -/
theorem C8_mean_price_amended (rows : List Listing) (nb : String) (p : ℚ) :
    ((neighborhood_mean_price rows nb).isSome = true ↔
      ∃ l ∈ rows, l.neighbourhood = nb ∧ l.price.isSome = true) ∧
    (groupPrices rows nb ≠ [] →
      neighborhood_mean_price rows nb =
        some (round2 ((groupPrices rows nb).sum /
          (groupPrices rows nb).length))) ∧
    (groupPrices rows nb = [p] →
      neighborhood_mean_price rows nb = some (round2 p)) ∧
    round2 100 = 100 := by
  have hne : ∀ h : groupPrices rows nb ≠ [],
      neighborhood_mean_price rows nb =
        some (round2 ((groupPrices rows nb).sum /
          (groupPrices rows nb).length)) := by
    intro h
    unfold neighborhood_mean_price
    rw [if_neg (by simpa [List.isEmpty_iff] using h)]
  refine ⟨?_, hne, ?_, by norm_num [round2, round_eq]⟩
  · rw [← groupPrices_ne_nil_iff]
    unfold neighborhood_mean_price
    by_cases h : groupPrices rows nb = []
    · simp [h]
    · rw [if_neg (by simpa [List.isEmpty_iff] using h)]
      simpa using h
  · intro h
    rw [hne (by rw [h]; exact List.cons_ne_nil p []), h]
    norm_num

/-- Witness for the amended C8 at a concrete one-row table priced 100. -/
theorem C8_mean_price_amended_witness :
    ((neighborhood_mean_price [lA] "Back Bay").isSome = true ↔
      ∃ l ∈ [lA], l.neighbourhood = "Back Bay" ∧ l.price.isSome = true) ∧
    neighborhood_mean_price [lA] "Back Bay" = some (round2 100) ∧
    round2 100 = 100 :=
  have h := C8_mean_price_amended [lA] "Back Bay" 100
  have hg : groupPrices [lA] "Back Bay" = [100] := by
    simp [groupPrices, lA]
  ⟨h.1, h.2.2.1 hg, h.2.2.2⟩

/-- C9: the program contradicts the claim — and the code's own line-43
comment "Handles CSV or Excel parsing errors" — on malformed Excel content:
`pd.read_excel` raises an exception neither `except` clause matches, so
`load_data` raises instead of reporting a failure signal and returning
`(None, None, None, None)`.  A failure the clauses do catch (here a missing
listings file) behaves as the claim says, and a full success returns all
four tables — in neither returning case is the tuple partial. -/
theorem C9_loader_uncaught_excel :
    load_data (Except.ok []) (Except.ok []) (Except.ok [])
        (Except.error (ReadError.uncaught "zipfile.BadZipFile")) =
      Except.error (ReadError.uncaught "zipfile.BadZipFile") ∧
    load_data (Except.error (ReadError.sourceNotFound "listings.csv"))
        (Except.ok []) (Except.ok []) (Except.ok []) =
      Except.ok (some (ReadError.sourceNotFound "listings.csv"),
        none, none, none, none) ∧
    load_data (Except.ok []) (Except.ok []) (Except.ok []) (Except.ok []) =
      Except.ok (none, some [], some [], some [], some []) :=
  ⟨rfl, rfl, rfl⟩

end App
